import Mathlib

/-!
Verification development for the `go_weather-client` repository
(`src/main.go`): a shallow embedding of its data model, JSON codec,
cache store, fetcher and orchestrator, together with theorems settling
the specification claims.

Modelling conventions:
* Go `float64` values are modelled as `Rat` (the program only adds,
  divides and compares them).
* `time.Time` is modelled as an `Int` of nanoseconds since the epoch;
  `time.Since(t).Minutes() < 10` becomes `now - t < 600000000000`.
* Go maps are modelled as association lists; a *nil* map is
  distinguished from an empty one with `Option` (assignment into a nil
  map is a runtime panic in Go).
* JSON documents are an inductive `Json` tree; `json.Unmarshal` into the
  program's struct types is modelled field by field with Go semantics:
  missing fields and `null` leave the zero value, type mismatches error,
  unknown fields are ignored.
* Runtime panics (out-of-range index, nil-map assignment) are the
  `.error ()` branch of `Except Unit`.
-/

namespace WeatherClient

/-- `WeatherData` from `src/main.go` lines 14-23: the common shape both
provider responses and cache entries are decoded into.  `weather` holds
the `description` field of each element of the `weather` JSON array. -/
structure WeatherData where
  mainTemp : Rat
  mainHumidity : Int
  weather : List String
  name : String
deriving Repr, DecidableEq

/-- The zero value of `WeatherData` (what `var weatherData WeatherData`
starts as in Go). -/
def WeatherData.zero : WeatherData := ⟨0, 0, [], ""⟩

/-- `Cache` from `src/main.go` lines 30-33.  `data` is `none` when the Go
map is nil (e.g. the JSON had no `data` key or it was `null`). -/
structure Cache where
  data : Option (List (String × WeatherData))
  timestamp : Int
deriving Repr, DecidableEq

/-- `Config` from `src/main.go` lines 25-28. -/
structure Config where
  openWeatherMapAPIKey : String
  weatherAPIKey : String
deriving Repr, DecidableEq

/-! ## JSON model -/

/-- A JSON document.  Numbers are rationals (JSON numbers are decimal
literals; every value the program serialises is representable). -/
inductive Json where
  | null
  | bool (b : Bool)
  | num (q : Rat)
  | str (s : String)
  | arr (elems : List Json)
  | obj (fields : List (String × Json))

/-- Last occurrence of a key in a JSON object's field list: Go's
`encoding/json` lets a later duplicate key overwrite an earlier one. -/
def lookupLast (k : String) : List (String × Json) → Option Json
  | [] => none
  | (k', v) :: rest =>
    match lookupLast k rest with
    | some v' => some v'
    | none => if k' = k then some v else none

/-- Decode an optional JSON field as a Go `float64`: a missing field or
`null` leaves the zero value, a number is taken as is, anything else is
an unmarshal type error. -/
def decNum : Option Json → Except Unit Rat
  | none => .ok 0
  | some .null => .ok 0
  | some (.num q) => .ok q
  | some _ => .error ()

/-- Decode an optional JSON field as a Go `int`: the number must be an
integer (Go rejects a fractional part). -/
def decInt : Option Json → Except Unit Int
  | none => .ok 0
  | some .null => .ok 0
  | some (.num q) => if q.den = 1 then .ok q.num else .error ()
  | some _ => .error ()

/-- Decode an optional JSON field as a Go `string`. -/
def decStr : Option Json → Except Unit String
  | none => .ok ""
  | some .null => .ok ""
  | some (.str s) => .ok s
  | some _ => .error ()

/-- Decode the nested `main` object of `WeatherData` (fields `temp`,
`humidity`). -/
def decMain : Option Json → Except Unit (Rat × Int)
  | none => .ok (0, 0)
  | some .null => .ok (0, 0)
  | some (.obj fs) =>
    match decNum (lookupLast "temp" fs), decInt (lookupLast "humidity" fs) with
    | .ok t, .ok h => .ok (t, h)
    | .error _, _ => .error ()
    | _, .error _ => .error ()
  | some _ => .error ()

/-- Decode one element of the `weather` array (an object with a
`description` field). -/
def decWeatherItem : Json → Except Unit String
  | .null => .ok ""
  | .obj fs => decStr (lookupLast "description" fs)
  | _ => .error ()

/-- Decode the `weather` array. -/
def decWeatherList : List Json → Except Unit (List String)
  | [] => .ok []
  | j :: rest =>
    match decWeatherItem j, decWeatherList rest with
    | .ok d, .ok ds => .ok (d :: ds)
    | .error _, _ => .error ()
    | _, .error _ => .error ()

/-- Decode the optional `weather` field. -/
def decWeather : Option Json → Except Unit (List String)
  | none => .ok []
  | some .null => .ok []
  | some (.arr xs) => decWeatherList xs
  | some _ => .error ()

/-- `json.Unmarshal` of a JSON document into `WeatherData`. -/
def decodeWeatherData : Json → Except Unit WeatherData
  | .null => .ok WeatherData.zero
  | .obj fs =>
    match decMain (lookupLast "main" fs), decWeather (lookupLast "weather" fs),
          decStr (lookupLast "name" fs) with
    | .ok (t, h), .ok w, .ok n => .ok ⟨t, h, w, n⟩
    | .error _, _, _ => .error ()
    | _, .error _, _ => .error ()
    | _, _, .error _ => .error ()
  | _ => .error ()

/-- Decode the entries of the cache's `data` object, one `WeatherData`
per city key. -/
def decodeEntries : List (String × Json) → Except Unit (List (String × WeatherData))
  | [] => .ok []
  | (k, j) :: rest =>
    match decodeWeatherData j, decodeEntries rest with
    | .ok w, .ok ws => .ok ((k, w) :: ws)
    | .error _, _ => .error ()
    | _, .error _ => .error ()

/-- Decode the optional `data` field of the cache: missing or `null`
leaves the map nil. -/
def decData : Option Json → Except Unit (Option (List (String × WeatherData)))
  | none => .ok none
  | some .null => .ok none
  | some (.obj fs) =>
    match decodeEntries fs with
    | .ok ws => .ok (some ws)
    | .error _ => .error ()
  | some _ => .error ()

/-- Decode the optional `timestamp` field (a serialised `time.Time`,
modelled as integer nanoseconds). -/
def decTime : Option Json → Except Unit Int
  | none => .ok 0
  | some .null => .ok 0
  | some (.num q) => if q.den = 1 then .ok q.num else .error ()
  | some _ => .error ()

/-- `json.Unmarshal` of a JSON document into `Cache`. -/
def decodeCache : Json → Except Unit Cache
  | .null => .ok ⟨none, 0⟩
  | .obj fs =>
    match decData (lookupLast "data" fs), decTime (lookupLast "timestamp" fs) with
    | .ok d, .ok t => .ok ⟨d, t⟩
    | .error _, _ => .error ()
    | _, .error _ => .error ()
  | _ => .error ()

/-- `json.Marshal` of a `WeatherData` (fields in struct order). -/
def encodeWeatherData (w : WeatherData) : Json :=
  .obj [("main", .obj [("temp", .num w.mainTemp), ("humidity", .num w.mainHumidity)]),
        ("weather", .arr (w.weather.map fun d => .obj [("description", .str d)])),
        ("name", .str w.name)]

/-- `json.MarshalIndent` of a `Cache` (as a JSON tree; indentation is
irrelevant to the tree).  A nil `data` map marshals to `null`. -/
def encodeCache (c : Cache) : Json :=
  .obj [("data",
          match c.data with
          | none => .null
          | some entries => .obj (entries.map fun e => (e.1, encodeWeatherData e.2))),
        ("timestamp", .num c.timestamp)]

/-! ## Cache store (`loadCache` / `saveCache`, lines 136-161) -/

/-- The state of the cache file on disk, as `ioutil.ReadFile` +
`json.Unmarshal` can observe it: absent, present but unreadable (a read
error that is not `IsNotExist`), present but not valid JSON, or a JSON
document. -/
inductive FileState where
  | missing
  | unreadable
  | malformed
  | json (doc : Json)

/-- The cache-store errors of `loadCache`: a read failure of an existing
file, or an `Unmarshal` failure. -/
inductive IOError where
  | readError
  | parseError
deriving Repr, DecidableEq

/-- `loadCache` (lines 136-152): a missing file yields `(nil, nil)` in
Go — here `.ok none`; any other read failure or an unmarshal failure is
an error; otherwise the decoded cache is returned (non-nil pointer). -/
def loadCache : FileState → Except IOError (Option Cache)
  | .missing => .ok none
  | .unreadable => .error .readError
  | .malformed => .error .parseError
  | .json doc =>
    match decodeCache doc with
    | .ok c => .ok (some c)
    | .error _ => .error .parseError

/-- The file contents `saveCache` (lines 154-161) writes: the marshalled
cache (`MarshalIndent` never fails on these types). -/
def saveCache (c : Cache) : FileState := .json (encodeCache c)

/-- First occurrence of a key in an association list (keys of a decoded
Go map are unique, so first and last coincide on real caches). -/
def lookupFirst (k : String) : List (String × WeatherData) → Option WeatherData
  | [] => none
  | (k', v) :: rest => if k' = k then some v else lookupFirst k rest

/-- Go map lookup `cache.Data[city]` — a nil map just reports absence. -/
def dataLookup (d : Option (List (String × WeatherData))) (k : String) : Option WeatherData :=
  match d with
  | none => none
  | some entries => lookupFirst k entries

/-- Go map assignment `m[k] = v` on a non-nil map: overwrite the key's
entry if present, otherwise add it. -/
def mapInsert (m : List (String × WeatherData)) (k : String) (v : WeatherData) :
    List (String × WeatherData) :=
  match m with
  | [] => [(k, v)]
  | (k', v') :: rest => if k' = k then (k, v) :: rest else (k', v') :: mapInsert rest k v

/-! ## Weather fetcher (`fetchWeatherData`, lines 173-192) -/

/-- What one provider's HTTP interaction can yield, as observed by
`fetchWeatherData`: a transport error from `http.Get`, a body-read error
from `ioutil.ReadAll`, a body that is not valid JSON, or a status code
together with a JSON body. -/
inductive HttpResult where
  | netError
  | readError (status : Nat)
  | malformedBody (status : Nat)
  | response (status : Nat) (body : Json)

/-- `fetchWeatherData` (lines 173-192): forward transport/read errors,
unmarshal the body.  Note the source never inspects `resp.StatusCode`:
the `status` of a well-formed response is ignored. -/
def fetchWeatherData : HttpResult → Except Unit WeatherData
  | .netError => .error ()
  | .readError _ => .error ()
  | .malformedBody _ => .error ()
  | .response _ body => decodeWeatherData body

/-- Whether a provider call's result is dropped (its goroutine, lines
70-78 and 81-89, appends only when `err == nil`). -/
def dropped (r : HttpResult) : Bool :=
  match fetchWeatherData r with
  | .error _ => true
  | .ok _ => false

/-- The shared `weatherDataList` after both goroutines have finished
(lines 65-91): each successful call appended its reading under the
mutex; when both succeed, `owmFirst` records which append won the race. -/
def collectReadings (rA rB : Except Unit WeatherData) (owmFirst : Bool) : List WeatherData :=
  match rA, rB with
  | .ok a, .ok b => if owmFirst then [a, b] else [b, a]
  | .ok a, .error _ => [a]
  | .error _, .ok b => [b]
  | .error _, .error _ => []

/-! ## Orchestrator (`main`, lines 35-118) -/

/-- One printed line, abstracted to the format string used and its
arguments (`fmt.Printf`/`fmt.Println` calls of `main`). -/
inductive Line where
  | errorMsg (msg : String)
  | hitHeader (name : String)
  | avgHeader (name : String)
  | temperature (t : Rat)
  | humidity (h : Int)
  | descriptionLine (d : String)
deriving Repr, DecidableEq

/-- The inputs one run of `main` draws from its environment. -/
structure Env where
  city : String
  configResult : Except Unit Config
  cacheFile : FileState
  now : Int
  owmHttp : HttpResult
  wapiHttp : HttpResult
  owmFirst : Bool
  writeFails : Bool

/-- The observable outcome of a completed (non-panicking) run. -/
structure RunResult where
  output : List Line
  exitCode : Nat
  networkCalls : Nat
  cacheWrite : Option Cache
  cacheFile : FileState

/-- The 10-minute TTL of line 55, in nanoseconds
(`time.Since(cache.Timestamp).Minutes() < 10`). -/
def ttlNanos : Int := 600000000000

/-- The cache `main` holds after line 53: the loaded cache, or nil when
loading failed (the error is only logged). -/
def loadedCache (env : Env) : Option Cache :=
  match loadCache env.cacheFile with
  | .ok o => o
  | .error _ => none

/-- The lines printed before the cache check: the load-error log of line
52, if any. -/
def preOut (env : Env) : List Line :=
  match loadCache env.cacheFile with
  | .ok _ => []
  | .error _ => [.errorMsg "Error loading cache"]

/-- The cached entry the hit test of lines 55-56 finds: present exactly
when the cache loaded non-nil, is fresh, and holds the city. -/
def cacheHitEntry (env : Env) : Option WeatherData :=
  match loadedCache env with
  | none => none
  | some c =>
    if env.now - c.timestamp < ttlNanos then dataLookup c.data env.city else none

/-- The data map `main` mutates at line 112: the loaded cache's map, or
the fresh empty map of line 110 when no cache was loaded (`nil` when the
loaded cache decoded with a nil `data` map — assigning into it
panics). -/
def baseData (env : Env) : Option (List (String × WeatherData)) :=
  match loadedCache env with
  | none => some []
  | some c => c.data

/-- Lines 65-117: run both fetch goroutines, join, and aggregate.
Returns `.error ()` on the nil-map-assignment panic of line 112. -/
def fetchPath (env : Env) : Except Unit RunResult :=
  let rA := fetchWeatherData env.owmHttp
  let rB := fetchWeatherData env.wapiHttp
  match collectReadings rA rB env.owmFirst with
  | [] =>
    .ok ⟨preOut env ++ [.errorMsg "Failed to retrieve weather data"], 1, 2, none, env.cacheFile⟩
  | first :: rest =>
    let all := first :: rest
    let avg := (all.map (·.mainTemp)).sum / (all.length : Rat)
    let outMain := preOut env ++ [.avgHeader first.name, .temperature avg]
    match baseData env with
    | none => .error ()
    | some m =>
      let newCache : Cache := ⟨some (mapInsert m env.city first), env.now⟩
      if env.writeFails then
        .ok ⟨outMain ++ [.errorMsg "Error saving cache"], 0, 2, some newCache, env.cacheFile⟩
      else
        .ok ⟨outMain, 0, 2, some newCache, saveCache newCache⟩

/-- One run of `main` (lines 35-118).  `.error ()` is a runtime panic:
the out-of-range index of line 60 or the nil-map assignment of line
112. -/
def mainRun (env : Env) : Except Unit RunResult :=
  if env.city = "" then
    .ok ⟨[.errorMsg "City name must be specified"], 1, 0, none, env.cacheFile⟩
  else
    match env.configResult with
    | .error _ => .ok ⟨[.errorMsg "Error loading config"], 1, 0, none, env.cacheFile⟩
    | .ok _ =>
      match cacheHitEntry env with
      | some wd =>
        match wd.weather with
        | [] => .error ()
        | d :: _ =>
          .ok ⟨preOut env ++ [.hitHeader wd.name, .temperature wd.mainTemp,
                              .humidity wd.mainHumidity, .descriptionLine d],
               0, 0, none, env.cacheFile⟩
      | none => fetchPath env

/-! ## Codec roundtrip lemmas -/

theorem decWeatherList_map_encode (ds : List String) :
    decWeatherList (ds.map fun d => Json.obj [("description", Json.str d)]) = .ok ds := by
  induction ds with
  | nil => rfl
  | cons d ds ih =>
    simp only [List.map_cons, decWeatherList, decWeatherItem, lookupLast, decStr, ih]
    rfl

theorem decodeWeatherData_encode (w : WeatherData) :
    decodeWeatherData (encodeWeatherData w) = .ok w := by
  have hw := decWeatherList_map_encode w.weather
  simp [encodeWeatherData, decodeWeatherData, lookupLast, decMain, decNum, decInt,
    decStr, decWeather, Rat.den_intCast, Rat.num_intCast, hw]

theorem decodeEntries_encode (entries : List (String × WeatherData)) :
    decodeEntries (entries.map fun e => (e.1, encodeWeatherData e.2)) = .ok entries := by
  induction entries with
  | nil => rfl
  | cons e rest ih =>
    simp only [List.map_cons, decodeEntries, decodeWeatherData_encode, ih]

theorem decodeCache_encode (c : Cache) : decodeCache (encodeCache c) = .ok c := by
  cases c with
  | mk d t =>
    cases d with
    | none =>
      simp only [encodeCache, decodeCache, lookupLast, decData, decTime,
        Rat.den_intCast, Rat.num_intCast, if_pos]
      rfl
    | some entries =>
      simp [encodeCache, decodeCache, lookupLast, decData, decTime,
        decodeEntries_encode, Rat.den_intCast, Rat.num_intCast]

/-! ## Association-map lemmas -/

theorem lookupFirst_mapInsert_self (m : List (String × WeatherData)) (k : String)
    (v : WeatherData) : lookupFirst k (mapInsert m k v) = some v := by
  induction m with
  | nil => simp [mapInsert, lookupFirst]
  | cons e rest ih =>
    by_cases h : e.1 = k
    · simp [mapInsert, lookupFirst, h]
    · simp [mapInsert, lookupFirst, h, ih]

theorem lookupFirst_mapInsert_other (m : List (String × WeatherData)) (k k' : String)
    (v : WeatherData) (h : k' ≠ k) :
    lookupFirst k' (mapInsert m k v) = lookupFirst k' m := by
  induction m with
  | nil => simp [mapInsert, lookupFirst, Ne.symm h]
  | cons e rest ih =>
    by_cases he : e.1 = k
    · simp [mapInsert, lookupFirst, he, Ne.symm h]
    · by_cases he' : e.1 = k'
      · simp [mapInsert, lookupFirst, he, he', h]
      · simp [mapInsert, lookupFirst, he, he', ih]

/-! ## Orchestrator path lemmas -/

theorem mainRun_early_city (env : Env) (h : env.city = "") :
    mainRun env =
      .ok ⟨[.errorMsg "City name must be specified"], 1, 0, none, env.cacheFile⟩ := by
  simp [mainRun, h]

theorem mainRun_early_config (env : Env) (hcity : env.city ≠ "")
    (hcfg : env.configResult = .error ()) :
    mainRun env = .ok ⟨[.errorMsg "Error loading config"], 1, 0, none, env.cacheFile⟩ := by
  simp [mainRun, hcity, hcfg]

theorem mainRun_hit (env : Env) (wd : WeatherData) (d : String) (ds : List String)
    (cfg : Config) (hcity : env.city ≠ "") (hcfg : env.configResult = .ok cfg)
    (hhit : cacheHitEntry env = some wd) (hw : wd.weather = d :: ds) :
    mainRun env =
      .ok ⟨preOut env ++ [.hitHeader wd.name, .temperature wd.mainTemp,
                          .humidity wd.mainHumidity, .descriptionLine d],
           0, 0, none, env.cacheFile⟩ := by
  simp [mainRun, hcity, hcfg, hhit, hw]

theorem mainRun_hit_panic (env : Env) (wd : WeatherData) (cfg : Config)
    (hcity : env.city ≠ "") (hcfg : env.configResult = .ok cfg)
    (hhit : cacheHitEntry env = some wd) (hw : wd.weather = []) :
    mainRun env = .error () := by
  simp [mainRun, hcity, hcfg, hhit, hw]

theorem mainRun_fetch (env : Env) (cfg : Config) (hcity : env.city ≠ "")
    (hcfg : env.configResult = .ok cfg) (hmiss : cacheHitEntry env = none) :
    mainRun env = fetchPath env := by
  simp [mainRun, hcity, hcfg, hmiss]

theorem fetchPath_empty (env : Env)
    (h : collectReadings (fetchWeatherData env.owmHttp) (fetchWeatherData env.wapiHttp)
           env.owmFirst = []) :
    fetchPath env =
      .ok ⟨preOut env ++ [.errorMsg "Failed to retrieve weather data"], 1, 2, none,
           env.cacheFile⟩ := by
  simp [fetchPath, h]

theorem fetchPath_cons (env : Env) (first : WeatherData) (rest : List WeatherData)
    (m : List (String × WeatherData))
    (h : collectReadings (fetchWeatherData env.owmHttp) (fetchWeatherData env.wapiHttp)
           env.owmFirst = first :: rest)
    (hbase : baseData env = some m) :
    fetchPath env =
      .ok ⟨(preOut env ++ [.avgHeader first.name,
              .temperature (((first :: rest).map (·.mainTemp)).sum /
                ((first :: rest).length : Rat))]) ++
             (if env.writeFails then [.errorMsg "Error saving cache"] else []),
           0, 2, some ⟨some (mapInsert m env.city first), env.now⟩,
           if env.writeFails then env.cacheFile
           else saveCache ⟨some (mapInsert m env.city first), env.now⟩⟩ := by
  cases hf : env.writeFails <;> simp [fetchPath, h, hbase, hf]

theorem fetchPath_panic (env : Env) (first : WeatherData) (rest : List WeatherData)
    (h : collectReadings (fetchWeatherData env.owmHttp) (fetchWeatherData env.wapiHttp)
           env.owmFirst = first :: rest)
    (hbase : baseData env = none) :
    fetchPath env = .error () := by
  simp [fetchPath, h, hbase]

theorem fetchPath_calls (env : Env) (res : RunResult) (h : fetchPath env = .ok res) :
    res.networkCalls = 2 := by
  revert h
  cases hcol : collectReadings (fetchWeatherData env.owmHttp)
      (fetchWeatherData env.wapiHttp) env.owmFirst with
  | nil =>
    rw [fetchPath_empty env hcol]
    intro h
    cases h
    rfl
  | cons first rest =>
    cases hbase : baseData env with
    | none =>
      rw [fetchPath_panic env first rest hcol hbase]
      intro h
      cases h
    | some m =>
      rw [fetchPath_cons env first rest m hcol hbase]
      intro h
      cases h
      rfl

/-! ## Concrete runs used to instantiate the theorems -/

def cfg0 : Config := ⟨"ka", "kb"⟩

def wdA : WeatherData := ⟨10, 55, ["sunny"], "Paris"⟩

def wdB : WeatherData := ⟨20, 60, ["rain"], "Paris"⟩

/-- A run with no cache file and both providers answering 200 with
decodable bodies. -/
def envBoth : Env :=
  ⟨"Paris", .ok cfg0, .missing, 0, .response 200 (encodeWeatherData wdA),
   .response 200 (encodeWeatherData wdB), true, false⟩

def cacheAfterBoth : Cache := ⟨some [("Paris", wdA)], 0⟩

def resBoth : RunResult :=
  ⟨[.avgHeader "Paris", .temperature 15], 0, 2, some cacheAfterBoth, saveCache cacheAfterBoth⟩

theorem envBoth_collect :
    collectReadings (fetchWeatherData envBoth.owmHttp) (fetchWeatherData envBoth.wapiHttp)
      envBoth.owmFirst = [wdA, wdB] := by
  simp [envBoth, fetchWeatherData, decodeWeatherData_encode, collectReadings]

theorem envBoth_run : mainRun envBoth = .ok resBoth := by
  rw [mainRun_fetch envBoth cfg0 (by decide) rfl rfl,
      fetchPath_cons envBoth wdA [wdB] [] envBoth_collect rfl]
  norm_num [resBoth, preOut, loadCache, envBoth, cacheAfterBoth, mapInsert, wdA, wdB]

/-- A run hitting a fresh cache whose entry has a non-empty weather list. -/
def wdHit : WeatherData := ⟨7, 50, ["clear"], "Oslo"⟩

def cacheHit : Cache := ⟨some [("Oslo", wdHit)], 0⟩

def envHit : Env :=
  ⟨"Oslo", .ok cfg0, .json (encodeCache cacheHit), 0, .netError, .netError, true, false⟩

def resHit : RunResult :=
  ⟨[.hitHeader "Oslo", .temperature 7, .humidity 50, .descriptionLine "clear"],
   0, 0, none, envHit.cacheFile⟩

theorem envHit_run : mainRun envHit = .ok resHit := rfl

/-- A run with no cache file and both providers failing with transport
errors. -/
def envFail : Env := ⟨"Oslo", .ok cfg0, .missing, 0, .netError, .netError, true, false⟩

/-! ## Claims -/

/-- C1: for every successfully loaded cache, the network fetch is skipped if
and only if the cache is fresh (`now - lastRefreshed < 10min`) and the queried
city is present in its entries; on that hit the cached reading is printed and
the run exits 0 with zero network calls and no cache write, while a stale
cache leads to a fetch (two provider calls) even if the city is present. -/
theorem cache_hit_skips_fetch_iff_fresh_and_present
    (env : Env) (c : Cache) (res : RunResult) (cfg : Config)
    (hcity : env.city ≠ "") (hcfg : env.configResult = .ok cfg)
    (hload : loadCache env.cacheFile = .ok (some c))
    (hrun : mainRun env = .ok res) :
    (res.networkCalls = 0 ↔
      (env.now - c.timestamp < ttlNanos ∧ (dataLookup c.data env.city).isSome = true))
    ∧ (∀ wd, env.now - c.timestamp < ttlNanos → dataLookup c.data env.city = some wd →
        res.exitCode = 0 ∧ res.networkCalls = 0 ∧ res.cacheWrite = none ∧
        res.cacheFile = env.cacheFile ∧
        ∃ d ds, wd.weather = d :: ds ∧
          res.output = [.hitHeader wd.name, .temperature wd.mainTemp,
                        .humidity wd.mainHumidity, .descriptionLine d])
    ∧ (ttlNanos ≤ env.now - c.timestamp → res.networkCalls = 2) := by
  have hloaded : loadedCache env = some c := by simp [loadedCache, hload]
  have hpre : preOut env = [] := by simp [preOut, hload]
  by_cases hfresh : env.now - c.timestamp < ttlNanos
  · cases hlook : dataLookup c.data env.city with
    | some wd =>
      have hhit : cacheHitEntry env = some wd := by
        simp [cacheHitEntry, hloaded, hfresh, hlook]
      cases hwd : wd.weather with
      | nil =>
        have := mainRun_hit_panic env wd cfg hcity hcfg hhit hwd
        rw [hrun] at this
        cases this
      | cons d ds =>
        have hmain := mainRun_hit env wd d ds cfg hcity hcfg hhit hwd
        rw [hrun, hpre] at hmain
        injection hmain with hres
        subst hres
        refine ⟨by simp [hfresh], fun wd' _ hlook' => ?_, fun hstale => ?_⟩
        · injection hlook' with hwd'
          subst hwd'
          exact ⟨rfl, rfl, rfl, rfl, d, ds, hwd, rfl⟩
        · exact absurd hfresh (not_lt.mpr hstale)
    | none =>
      have hmiss : cacheHitEntry env = none := by
        simp [cacheHitEntry, hloaded, hfresh, hlook]
      have hf : fetchPath env = .ok res := by
        rw [← mainRun_fetch env cfg hcity hcfg hmiss]; exact hrun
      have hcalls := fetchPath_calls env res hf
      refine ⟨by simp [hcalls], fun wd' _ hlook' => ?_, fun _ => hcalls⟩
      cases hlook'
  · have hmiss : cacheHitEntry env = none := by
      simp [cacheHitEntry, hloaded, hfresh]
    have hf : fetchPath env = .ok res := by
      rw [← mainRun_fetch env cfg hcity hcfg hmiss]; exact hrun
    have hcalls := fetchPath_calls env res hf
    exact ⟨by simp [hcalls, hfresh], fun wd' hfresh' _ => absurd hfresh' hfresh,
           fun _ => hcalls⟩

/-- Witness for C1: on the concrete fresh-hit run `envHit`, zero network
calls are made. -/
theorem cache_hit_skips_fetch_witness : resHit.networkCalls = 0 :=
  (cache_hit_skips_fetch_iff_fresh_and_present envHit cacheHit resHit cfg0
    (by decide) rfl rfl envHit_run).1.mpr (by decide)

/-- C2: if both provider calls fail, the run prints the failure message and
exits with code 1, performs no cache write, and leaves the cache file
unmodified. -/
theorem both_providers_fail_exits_one_cache_untouched
    (env : Env) (cfg : Config) (hcity : env.city ≠ "")
    (hcfg : env.configResult = .ok cfg) (hmiss : cacheHitEntry env = none)
    (hA : fetchWeatherData env.owmHttp = .error ())
    (hB : fetchWeatherData env.wapiHttp = .error ()) :
    ∃ res, mainRun env = .ok res
      ∧ res.exitCode = 1
      ∧ res.output = preOut env ++ [.errorMsg "Failed to retrieve weather data"]
      ∧ res.cacheWrite = none
      ∧ res.cacheFile = env.cacheFile := by
  have h : mainRun env =
      .ok ⟨preOut env ++ [.errorMsg "Failed to retrieve weather data"], 1, 2, none,
           env.cacheFile⟩ := by
    rw [mainRun_fetch env cfg hcity hcfg hmiss]
    exact fetchPath_empty env (by rw [hA, hB]; rfl)
  exact ⟨_, h, rfl, rfl, rfl, rfl⟩

/-- Witness for C2: the concrete run `envFail` (no cache, both providers
erroring) exits 1. -/
theorem both_providers_fail_witness :
    ∃ res, mainRun envFail = .ok res ∧ res.exitCode = 1 := by
  obtain ⟨res, hrun, hexit, -, -, -⟩ :=
    both_providers_fail_exits_one_cache_untouched envFail cfg0 (by decide) rfl rfl rfl rfl
  exact ⟨res, hrun, hexit⟩

/-- The two shapes `preOut` can take: nothing, or the cache-load error log. -/
theorem preOut_cases (env : Env) :
    preOut env = [] ∨ preOut env = [.errorMsg "Error loading cache"] := by
  unfold preOut
  cases loadCache env.cacheFile <;> simp

/-- On a completed run that reached the fetch path with a non-empty reading
list, the run result is the explicit fetch-success record. -/
theorem mainRun_fetch_explicit
    (env : Env) (cfg : Config) (res : RunResult) (first : WeatherData)
    (rest : List WeatherData)
    (hcity : env.city ≠ "") (hcfg : env.configResult = .ok cfg)
    (hmiss : cacheHitEntry env = none)
    (hcol : collectReadings (fetchWeatherData env.owmHttp) (fetchWeatherData env.wapiHttp)
              env.owmFirst = first :: rest)
    (hrun : mainRun env = .ok res) :
    ∃ m, baseData env = some m ∧
      res = ⟨(preOut env ++ [.avgHeader first.name,
                .temperature (((first :: rest).map (·.mainTemp)).sum /
                  ((first :: rest).length : Rat))]) ++
               (if env.writeFails then [.errorMsg "Error saving cache"] else []),
             0, 2, some ⟨some (mapInsert m env.city first), env.now⟩,
             if env.writeFails then env.cacheFile
             else saveCache ⟨some (mapInsert m env.city first), env.now⟩⟩ := by
  have hf : fetchPath env = .ok res := by
    rw [← mainRun_fetch env cfg hcity hcfg hmiss]; exact hrun
  cases hbase : baseData env with
  | none =>
    rw [fetchPath_panic env first rest hcol hbase] at hf
    cases hf
  | some m =>
    rw [fetchPath_cons env first rest m hcol hbase] at hf
    injection hf with h
    exact ⟨m, rfl, h.symm⟩

/-- C3: when at least one reading is collected, the printed temperature is the
arithmetic mean of `mainTemp` over the collected readings; with a single
reading it is that reading's temperature exactly, and with readings of 10.0
and 20.0 it is 15.0. -/
theorem reported_temperature_is_mean
    (env : Env) (cfg : Config) (res : RunResult) (first : WeatherData)
    (rest : List WeatherData)
    (hcity : env.city ≠ "") (hcfg : env.configResult = .ok cfg)
    (hmiss : cacheHitEntry env = none)
    (hcol : collectReadings (fetchWeatherData env.owmHttp) (fetchWeatherData env.wapiHttp)
              env.owmFirst = first :: rest)
    (hrun : mainRun env = .ok res) :
    Line.temperature (((first :: rest).map (·.mainTemp)).sum /
        ((first :: rest).length : Rat)) ∈ res.output
    ∧ (rest = [] → Line.temperature first.mainTemp ∈ res.output)
    ∧ (first.mainTemp = 10 → rest.map (·.mainTemp) = [20] →
        Line.temperature 15 ∈ res.output) := by
  obtain ⟨m, -, hres⟩ :=
    mainRun_fetch_explicit env cfg res first rest hcity hcfg hmiss hcol hrun
  subst hres
  refine ⟨by simp, fun hrest => ?_, fun h10 h20 => ?_⟩
  · subst hrest
    have havg : ((([first] : List WeatherData).map (·.mainTemp)).sum /
        (([first] : List WeatherData).length : Rat)) = first.mainTemp := by
      simp
    rw [havg] at *
    simp
  · have hlen : rest.length = 1 := by
      have := congrArg List.length h20
      simpa using this
    have havg : (((first :: rest).map (·.mainTemp)).sum /
        ((first :: rest).length : Rat)) = 15 := by
      have hsum : (rest.map (·.mainTemp)).sum = 20 := by rw [h20]; simp
      simp [h10, hsum, hlen]
      norm_num
    rw [havg]
    simp

/-- Witness for C3: on the concrete run `envBoth` (readings 10.0 and 20.0) the
output contains temperature 15. -/
theorem reported_temperature_is_mean_witness :
    Line.temperature 15 ∈ resBoth.output :=
  (reported_temperature_is_mean envBoth cfg0 resBoth wdA [wdB]
    (by decide) rfl rfl envBoth_collect envBoth_run).2.2 rfl rfl

/-- The drop condition asserted by the claim, for comparison with the
source's behaviour: a provider's result is dropped on a network error, a
non-2xx HTTP status, or a body decode failure.  (This definition follows
the claim's words, not the source.) -/
def specDropCond (r : HttpResult) : Bool :=
  match r with
  | .netError => true
  | .readError _ => true
  | .malformedBody _ => true
  | .response s body =>
    if 200 ≤ s ∧ s < 300 then
      match decodeWeatherData body with
      | .error _ => true
      | .ok _ => false
    else true

/-- C4 counterexample: a 404 response whose JSON body decodes (Go ignores
unknown fields and leaves missing fields at their zero values, and
`fetchWeatherData` never reads `resp.StatusCode`) is NOT dropped, although
the claim's condition says a non-2xx response is dropped. -/
theorem provider_drop_claim_counterexample :
    specDropCond (.response 404 (.obj [])) = true
    ∧ dropped (.response 404 (.obj [])) = false := by
  exact ⟨rfl, rfl⟩

/-- C4 amended: a provider call's result is dropped exactly when the call
errors — a transport error, a body-read error, an unparsable body, or a body
that fails to decode; the HTTP status code is never consulted.  A single
provider's failure never removes the other provider's successful reading from
the collected list. -/
theorem provider_drop_amended :
    (∀ r, dropped r = true ↔
       (r = .netError ∨ (∃ s, r = .readError s) ∨ (∃ s, r = .malformedBody s)
        ∨ ∃ s body, r = .response s body ∧ decodeWeatherData body = .error ()))
    ∧ (∀ rA rB owmFirst b, rB = .ok b → b ∈ collectReadings rA rB owmFirst)
    ∧ (∀ rA rB owmFirst a, rA = .ok a → a ∈ collectReadings rA rB owmFirst) := by
  refine ⟨fun r => ?_, fun rA rB o b hb => ?_, fun rA rB o a ha => ?_⟩
  · cases r with
    | netError => simp [dropped, fetchWeatherData]
    | readError s => simp [dropped, fetchWeatherData]
    | malformedBody s => simp [dropped, fetchWeatherData]
    | response s body =>
      cases hd : decodeWeatherData body with
      | ok w => simp [dropped, fetchWeatherData, hd]
      | error e =>
        cases e
        simp only [dropped, fetchWeatherData, hd, true_iff]
        exact Or.inr (Or.inr (Or.inr ⟨s, body, rfl, hd⟩))
  · subst hb
    cases rA <;> cases o <;> simp [collectReadings]
  · subst ha
    cases rB <;> cases o <;> simp [collectReadings]

/-- Witness for C4's amended theorem: a successful second provider's reading
is collected although the first provider failed. -/
theorem provider_drop_amended_witness :
    WeatherData.zero ∈ collectReadings (.error ()) (.ok WeatherData.zero) true :=
  provider_drop_amended.2.1 (.error ()) (.ok WeatherData.zero) true WeatherData.zero rfl

/-- C5 counterexample: on the concrete run `envBoth`, the first collected
reading has humidity 55 and description "sunny", yet the output contains the
averaged header and temperature only — no humidity or description line — so
the claim that the report uses the first reading's humidity and description
as fields of the output is false. -/
theorem report_fields_claim_counterexample :
    mainRun envBoth = .ok resBoth
    ∧ Line.avgHeader "Paris" ∈ resBoth.output
    ∧ Line.humidity 55 ∉ resBoth.output
    ∧ Line.descriptionLine "sunny" ∉ resBoth.output :=
  ⟨envBoth_run, by decide, by decide, by decide⟩

/-- C5 amended: the fetch-path report uses the first successful reading's
location (its `name`) in the header, alongside the averaged temperature; the
first reading's humidity and description are not part of the output — no
humidity or description line is ever printed on that path — and instead the
whole first reading is persisted as the cache entry. -/
theorem report_fields_amended
    (env : Env) (cfg : Config) (res : RunResult) (first : WeatherData)
    (rest : List WeatherData)
    (hcity : env.city ≠ "") (hcfg : env.configResult = .ok cfg)
    (hmiss : cacheHitEntry env = none)
    (hcol : collectReadings (fetchWeatherData env.owmHttp) (fetchWeatherData env.wapiHttp)
              env.owmFirst = first :: rest)
    (hrun : mainRun env = .ok res) :
    Line.avgHeader first.name ∈ res.output
    ∧ (∀ h : Int, Line.humidity h ∉ res.output)
    ∧ (∀ d : String, Line.descriptionLine d ∉ res.output)
    ∧ ∃ c', res.cacheWrite = some c' ∧ dataLookup c'.data env.city = some first := by
  obtain ⟨m, -, hres⟩ :=
    mainRun_fetch_explicit env cfg res first rest hcity hcfg hmiss hcol hrun
  subst hres
  have hpre := preOut_cases env
  refine ⟨by simp, fun h => ?_, fun d => ?_, ?_⟩
  · rcases hpre with hp | hp <;> cases hw : env.writeFails <;> simp [hp, hw]
  · rcases hpre with hp | hp <;> cases hw : env.writeFails <;> simp [hp, hw]
  · exact ⟨_, rfl, by simp [dataLookup, lookupFirst_mapInsert_self]⟩

/-- Witness for C5's amended theorem: on `envBoth` the averaged header carries
the first reading's name. -/
theorem report_fields_amended_witness :
    Line.avgHeader wdA.name ∈ resBoth.output :=
  (report_fields_amended envBoth cfg0 resBoth wdA [wdB]
    (by decide) rfl rfl envBoth_collect envBoth_run).1

/-- C6: loading the cache from a path with no file succeeds and yields a cache
in which no city is found (the hit lookup finds nothing, whatever the city and
clock), and loading fails with an IOError exactly when the file exists but is
unreadable or its contents are malformed (unparsable JSON, or JSON that does
not decode into a cache). -/
theorem loadCache_missing_yields_empty :
    loadCache .missing = .ok none
    ∧ (∀ (city : String) (cfgR : Except Unit Config) (now : Int)
         (hA hB : HttpResult) (o w : Bool),
        cacheHitEntry ⟨city, cfgR, .missing, now, hA, hB, o, w⟩ = none)
    ∧ (∀ f : FileState, (∃ e, loadCache f = .error e) ↔
        (f = .unreadable ∨ f = .malformed
         ∨ ∃ doc, f = .json doc ∧ decodeCache doc = .error ())) := by
  refine ⟨rfl, fun _ _ _ _ _ _ _ => rfl, fun f => ?_⟩
  cases f with
  | missing => simp [loadCache]
  | unreadable => simp [loadCache]
  | malformed => simp [loadCache]
  | json doc =>
    cases hd : decodeCache doc with
    | ok c => simp [loadCache, hd]
    | error e =>
      cases e
      simp [loadCache, hd]

/-- Witness for C6: the malformed cache file is refused with an error. -/
theorem loadCache_missing_yields_empty_witness :
    ∃ e, loadCache .malformed = .error e :=
  (loadCache_missing_yields_empty.2.2 .malformed).mpr (Or.inr (Or.inl rfl))

/-- C7: saving any cache value and loading it back succeeds and reproduces a
cache with the same entries (every city key maps to an equal reading) and the
same timestamp. -/
theorem cache_save_load_roundtrip (c : Cache) :
    ∃ c', loadCache (saveCache c) = .ok (some c')
      ∧ (∀ city, dataLookup c'.data city = dataLookup c.data city)
      ∧ c'.timestamp = c.timestamp := by
  refine ⟨c, ?_, fun _ => rfl, rfl⟩
  simp [loadCache, saveCache, decodeCache_encode]

/-- C8: a completed run mutates the cache at most once — either it performs no
cache write and leaves the cache file untouched, or (fetch-success path only)
it writes exactly one cache whose entries are the run's base map with the
single queried-city entry inserted or overwritten, whose timestamp is `now`,
and in which every other city keeps its previous value; the file itself is
rewritten only on the successful save. -/
theorem cache_mutated_at_most_once (env : Env) (res : RunResult)
    (hrun : mainRun env = .ok res) :
    (res.cacheWrite = none ∧ res.cacheFile = env.cacheFile)
    ∨ (∃ first m, baseData env = some m
        ∧ res.cacheWrite = some ⟨some (mapInsert m env.city first), env.now⟩
        ∧ dataLookup (some (mapInsert m env.city first)) env.city = some first
        ∧ (∀ k, k ≠ env.city →
            dataLookup (some (mapInsert m env.city first)) k = dataLookup (some m) k)
        ∧ (res.cacheFile = env.cacheFile
           ∨ res.cacheFile = saveCache ⟨some (mapInsert m env.city first), env.now⟩)) := by
  by_cases hcity : env.city = ""
  · rw [mainRun_early_city env hcity] at hrun
    injection hrun with h
    subst h
    exact Or.inl ⟨rfl, rfl⟩
  · cases hcfg : env.configResult with
    | error e =>
      cases e
      rw [mainRun_early_config env hcity hcfg] at hrun
      injection hrun with h
      subst h
      exact Or.inl ⟨rfl, rfl⟩
    | ok cfg =>
      cases hhit : cacheHitEntry env with
      | some wd =>
        cases hwd : wd.weather with
        | nil =>
          rw [mainRun_hit_panic env wd cfg hcity hcfg hhit hwd] at hrun
          cases hrun
        | cons d ds =>
          rw [mainRun_hit env wd d ds cfg hcity hcfg hhit hwd] at hrun
          injection hrun with h
          subst h
          exact Or.inl ⟨rfl, rfl⟩
      | none =>
        have hf : fetchPath env = .ok res := by
          rw [← mainRun_fetch env cfg hcity hcfg hhit]; exact hrun
        cases hcol : collectReadings (fetchWeatherData env.owmHttp)
            (fetchWeatherData env.wapiHttp) env.owmFirst with
        | nil =>
          rw [fetchPath_empty env hcol] at hf
          injection hf with h
          subst h
          exact Or.inl ⟨rfl, rfl⟩
        | cons first rest =>
          cases hbase : baseData env with
          | none =>
            rw [fetchPath_panic env first rest hcol hbase] at hf
            cases hf
          | some m =>
            rw [fetchPath_cons env first rest m hcol hbase] at hf
            injection hf with h
            subst h
            refine Or.inr ⟨first, m, rfl, rfl, ?_, fun k hk => ?_, ?_⟩
            · simp [dataLookup, lookupFirst_mapInsert_self]
            · simp [dataLookup, lookupFirst_mapInsert_other m env.city k first hk]
            · cases hw : env.writeFails <;> simp [hw]

/-- Witness for C8: the concrete hit run `envHit` performs no cache write and
leaves the cache file untouched. -/
theorem cache_mutated_at_most_once_witness :
    resHit.cacheWrite = none ∧ resHit.cacheFile = envHit.cacheFile := by
  rcases cache_mutated_at_most_once envHit resHit envHit_run with h | ⟨first, m, -, hw, -⟩
  · exact h
  · exact absurd hw (by simp [resHit])

/-- C9: on the successful fetch path the persisted entry for the queried city
is the first collected reading, unchanged — never the printed average — with
the timestamp bumped to `now`; a subsequent fresh cache hit on the written
file therefore reports that reading's raw temperature, humidity and
description. -/
theorem persisted_entry_is_first_reading_raw
    (env : Env) (cfg : Config) (res : RunResult) (first : WeatherData)
    (rest : List WeatherData)
    (hcity : env.city ≠ "") (hcfg : env.configResult = .ok cfg)
    (hmiss : cacheHitEntry env = none)
    (hcol : collectReadings (fetchWeatherData env.owmHttp) (fetchWeatherData env.wapiHttp)
              env.owmFirst = first :: rest)
    (hrun : mainRun env = .ok res)
    (hwrite : env.writeFails = false) :
    (∃ c', res.cacheWrite = some c'
       ∧ dataLookup c'.data env.city = some first
       ∧ c'.timestamp = env.now
       ∧ res.cacheFile = saveCache c')
    ∧ (∀ (env₂ : Env) (cfg₂ : Config) (d : String) (ds : List String),
        first.weather = d :: ds →
        env₂.city = env.city → env₂.configResult = .ok cfg₂ →
        env₂.cacheFile = res.cacheFile →
        env₂.now - env.now < ttlNanos →
        mainRun env₂ = .ok ⟨[.hitHeader first.name, .temperature first.mainTemp,
                             .humidity first.mainHumidity, .descriptionLine d],
                            0, 0, none, env₂.cacheFile⟩) := by
  obtain ⟨m, hbase, hres⟩ :=
    mainRun_fetch_explicit env cfg res first rest hcity hcfg hmiss hcol hrun
  subst hres
  rw [hwrite]
  refine ⟨⟨⟨some (mapInsert m env.city first), env.now⟩, rfl,
           by simp [dataLookup, lookupFirst_mapInsert_self], rfl, by simp⟩,
          fun env₂ cfg₂ d ds hwd hcity₂ hcfg₂ hfile₂ hfresh₂ => ?_⟩
  simp only [hwrite, if_neg Bool.false_ne_true, Bool.false_eq_true, if_false] at hfile₂
  have hload₂ : loadCache env₂.cacheFile =
      .ok (some ⟨some (mapInsert m env.city first), env.now⟩) := by
    rw [hfile₂]
    simp [loadCache, saveCache, decodeCache_encode]
  have hloaded₂ : loadedCache env₂ = some ⟨some (mapInsert m env.city first), env.now⟩ := by
    simp [loadedCache, hload₂]
  have hpre₂ : preOut env₂ = [] := by simp [preOut, hload₂]
  have hhit₂ : cacheHitEntry env₂ = some first := by
    simp [cacheHitEntry, hloaded₂, hfresh₂, hcity₂, dataLookup, lookupFirst_mapInsert_self]
  have hcity₂' : env₂.city ≠ "" := by rw [hcity₂]; exact hcity
  rw [mainRun_hit env₂ first d ds cfg₂ hcity₂' hcfg₂ hhit₂ hwd, hpre₂]
  rfl

/-- The follow-up run for C9's witness: same city, cache file as written by
`envBoth`, still fresh. -/
def envSecond : Env :=
  ⟨"Paris", .ok cfg0, resBoth.cacheFile, 0, .netError, .netError, true, false⟩

/-- Witness for C9: after the concrete run `envBoth` (readings 10.0 and 20.0,
printed average 15.0), a fresh re-run on the written cache file reports the
first reading's raw temperature 10.0, humidity 55 and description "sunny". -/
theorem persisted_entry_is_first_reading_raw_witness :
    mainRun envSecond = .ok ⟨[.hitHeader wdA.name, .temperature wdA.mainTemp,
                              .humidity wdA.mainHumidity, .descriptionLine "sunny"],
                             0, 0, none, envSecond.cacheFile⟩ :=
  (persisted_entry_is_first_reading_raw envBoth cfg0 resBoth wdA [wdB]
    (by decide) rfl rfl envBoth_collect envBoth_run rfl).2
    envSecond cfg0 "sunny" [] rfl rfl rfl rfl (by decide)

/-- C10: the cache-hit print path reads index 0 of the cached entry's weather
list without a bounds check: with a well-formed cache file whose entry for the
queried city has an empty weather array the run panics (out-of-range index),
and it completes only under the precondition that the list is non-empty. -/
theorem cache_hit_weather_index_unguarded
    (env : Env) (cfg : Config) (c : Cache) (wd : WeatherData)
    (hcity : env.city ≠ "") (hcfg : env.configResult = .ok cfg)
    (hload : loadCache env.cacheFile = .ok (some c))
    (hfresh : env.now - c.timestamp < ttlNanos)
    (hlook : dataLookup c.data env.city = some wd) :
    (wd.weather = [] → mainRun env = .error ())
    ∧ (∀ d ds, wd.weather = d :: ds → ∃ res, mainRun env = .ok res) := by
  have hloaded : loadedCache env = some c := by simp [loadedCache, hload]
  have hhit : cacheHitEntry env = some wd := by
    simp [cacheHitEntry, hloaded, hfresh, hlook]
  exact ⟨fun hw => mainRun_hit_panic env wd cfg hcity hcfg hhit hw,
         fun d ds hw => ⟨_, mainRun_hit env wd d ds cfg hcity hcfg hhit hw⟩⟩

/-- The cached entry with an empty weather array used by C10's witness. -/
def wdEmptyW : WeatherData := ⟨3, 40, [], "Kyiv"⟩

def cacheEmptyW : Cache := ⟨some [("Kyiv", wdEmptyW)], 0⟩

def envEmptyW : Env :=
  ⟨"Kyiv", .ok cfg0, .json (encodeCache cacheEmptyW), 0, .netError, .netError, true, false⟩

/-- Witness for C10: on the concrete well-formed cache file whose entry for
"Kyiv" has an empty weather array, the fresh-hit run panics. -/
theorem cache_hit_weather_index_witness : mainRun envEmptyW = .error () :=
  (cache_hit_weather_index_unguarded envEmptyW cfg0 cacheEmptyW wdEmptyW
    (by decide) rfl rfl (by decide) rfl).1 rfl

end WeatherClient
